import Mathlib

/-!
# Verification of the recur-scan recurrence-scoring engine

Shallow embedding of the feature-extraction code of the recur-scan
repository (src/recur_scan/features.py, features_laurels.py,
features_original.py, utils.py) and proofs about it.

Modelling conventions:
* Python floats are modelled as exact rationals (ℚ); the one development
  below that is about IEEE-754 representation (the ends_in_99 check) uses an
  explicit round-to-nearest-even binary64 model `DF` in mantissa-exponent
  form over ℤ.
* Python exceptions are modelled with `Except PyErr`; a function that can
  raise returns `Except PyErr α`, and `.error e` means the call raises.
* Date strings are Lean `String`s; the two strptime paths
  (the lenient "%Y-%m-%d" parser with error handling, the strict one, and
  the "%Y/%m/%d" parser) are modelled as separate functions, as in the code.
* The `Transaction` record itself lives in recur_scan/transactions.py,
  outside the sources; its four scored fields (user_id, name, amount, date)
  are modelled from the spec's data model, matching every use in the code.
-/

/-- Python exception classes that the embedded code can raise.  The extra
constructor `notModelled` is not a Python exception: it marks branches of the
FFT pipeline whose exact value is irrational (np.exp based scores, the
multi-point DFT); the theorems below prove those branches unreachable, which
a `notModelled`-free result certifies. -/
inductive PyErr where
  | valueError
  | indexError
  | zeroDivisionError
  | nameError
  | notModelled
  deriving DecidableEq, Repr

/-- Modelled from the spec: the Transaction record (owner id, counterparty
name, amount, date string) consumed read-only by every scorer.  The optional
non-semantic `id` field is omitted because no scoring logic reads it. -/
structure Transaction where
  user_id : String
  name : String
  amount : ℚ
  date : String
  deriving DecidableEq, Repr

/-- The {"mean": float, "std": float} dictionaries produced by
`_calculate_statistics` and consumed by the stats-based features. -/
structure Stats where
  mean : ℚ
  std : ℚ
  deriving DecidableEq, Repr

/-- features.py / features_laurels.py `is_near_periodic_interval_feature`
(the two files contain the identical function body):
returns 0.0 when the mean is 0, otherwise folds over the target list
[(7,2),(30,3),(365,10)], keeping the best score 1 - min(deviation/(tol/target), 1),
where each score is only computed when std < 5. -/
def is_near_periodic_interval_feature (s : Stats) : ℚ :=
  if s.mean = 0 then 0
  else
    let targets : List (ℚ × ℚ) := [(7, 2), (30, 3), (365, 10)]
    targets.foldl
      (fun best p =>
        let deviation := |s.mean - p.1| / p.1
        if s.std < 5 then max best (1 - min (deviation / (p.2 / p.1)) 1) else best)
      0

/-- features.py `merchant_interval_std_feature`: the interval std when it is
positive, otherwise the default 30.0.  The guard tests the std, not the mean. -/
def merchant_interval_std_feature (s : Stats) : ℚ :=
  if 0 < s.std then s.std else 30

/-- features.py `merchant_interval_mean_feature`: the interval mean when it is
positive, otherwise the default 60.0. -/
def merchant_interval_mean_feature (s : Stats) : ℚ :=
  if 0 < s.mean then s.mean else 60

/-- features.py `recurrence_likelihood_feature`: product of
1/(interval_std/10 + 1), 1/(amount_std/(amount_mean + 0.01) + 1) and
min(len(merchant_trans)/5, 1).  Python float division raises
ZeroDivisionError on a zero divisor, hence the Except result. -/
def recurrence_likelihood_feature (merchant_trans : List Transaction)
    (interval_stats amount_stats : Stats) : Except PyErr ℚ :=
  let interval_div := interval_stats.std / 10 + 1
  if interval_div = 0 then .error .zeroDivisionError
  else
    let interval_score := 1 / interval_div
    let mean_amount := amount_stats.mean
    if mean_amount + 1/100 = 0 then .error .zeroDivisionError
    else
      let amount_div := amount_stats.std / (mean_amount + 1/100) + 1
      if amount_div = 0 then .error .zeroDivisionError
      else
        let amount_score := 1 / amount_div
        let frequency_score := min ((merchant_trans.length : ℚ) / 5) 1
        .ok (interval_score * amount_score * frequency_score)

deriving instance DecidableEq for Except

/-- Splitting a character list at every occurrence of a separator character:
Python str.split(sep) for a one-character sep (both uses in the code split on
a single character).  The empty string yields [""], and adjacent separators
yield empty parts, as in Python. -/
def chSplit (sep : Char) : List Char → List (List Char)
  | [] => [[]]
  | c :: rest =>
    let r := chSplit sep rest
    if c = sep then [] :: r
    else
      match r with
      | h :: t => (c :: h) :: t
      | [] => [[c]]

/-- Python str.strip(): remove leading and trailing whitespace. -/
def chTrim (l : List Char) : List Char :=
  ((l.dropWhile Char.isWhitespace).reverse.dropWhile Char.isWhitespace).reverse

/-- Lexicographic code-point comparison of character lists: Python string
ordering (a proper prefix sorts first). -/
def chLe : List Char → List Char → Bool
  | [], _ => true
  | _ :: _, [] => false
  | a :: as, b :: bs => if a = b then chLe as bs else decide (a.toNat < b.toNat)

/-- Digits of a numeral to a natural number (helper for the parsers). -/
def digitsToNat (l : List Char) : Nat :=
  l.foldl (fun a c => a * 10 + (c.toNat - 48)) 0

/-- Python int(str): optional surrounding whitespace, optional sign, then a
nonempty digit string; anything else raises ValueError.  (Digit-group
underscores, which never occur in this code base, are not modelled.) -/
def pyIntOfStringData (l : List Char) : Except PyErr Int :=
  let t := chTrim l
  let neg := t.headD ' ' = '-'
  let core := if neg ∨ t.headD ' ' = '+' then t.drop 1 else t
  if core.length ≠ 0 ∧ core.all Char.isDigit then
    .ok (if neg then -(digitsToNat core : Int) else (digitsToNat core : Int))
  else .error .valueError

/-- Python int(str) on a Lean string. -/
def pyIntOfString (s : String) : Except PyErr Int :=
  pyIntOfStringData s.data

/-- Gregorian leap-year rule, as implemented by Python's datetime. -/
def isLeapYear (y : Int) : Bool :=
  (y % 4 == 0 && y % 100 != 0) || y % 400 == 0

/-- Number of days in a month, as validated by the datetime constructor. -/
def daysInMonth (y : Int) (m : Nat) : Nat :=
  if m = 2 then (if isLeapYear y then 29 else 28)
  else if m = 4 ∨ m = 6 ∨ m = 9 ∨ m = 11 then 30
  else 31

/-- A parsed calendar date (datetime.date / midnight datetime). -/
structure Date where
  year : Int
  month : Nat
  day : Nat
  deriving DecidableEq, Repr

/-- datetime.strptime with format %Y<sep>%m<sep>%d: %Y matches exactly four
digits, %m one or two digits in 1..12, %d one or two digits in 1..31, the
whole string must be consumed, and the datetime constructor then validates
the day against the month length.  Returns none where Python raises
ValueError. -/
def strptimeYMD (sep : Char) (s : String) : Option Date :=
  match chSplit sep s.data with
  | [ys, ms, ds] =>
    if ys.length = 4 ∧ ys.all Char.isDigit ∧
       ms.length ≠ 0 ∧ ms.length ≤ 2 ∧ ms.all Char.isDigit ∧
       ds.length ≠ 0 ∧ ds.length ≤ 2 ∧ ds.all Char.isDigit then
      let y := digitsToNat ys
      let m := digitsToNat ms
      let d := digitsToNat ds
      if 1 ≤ m ∧ m ≤ 12 ∧ 1 ≤ d ∧ d ≤ daysInMonth y m then
        some ⟨y, m, d⟩
      else none
    else none
  | _ => none

/-- features.py `_parse_date`: lenient parse of the canonical YYYY-MM-DD
format; returns None on failure instead of raising.  The lru_cache around it
is semantically transparent for a pure parse. -/
def _parse_date (s : String) : Option Date := strptimeYMD (Char.ofNat 45) s

/-- utils.py `parse_date`: the strict parse path; raises ValueError on a
format mismatch. -/
def parse_date (s : String) : Except PyErr Date :=
  match strptimeYMD (Char.ofNat 45) s with
  | some d => .ok d
  | none => .error .valueError

/-- The %Y/%m/%d strptime call inside features_laurels.py `_calc_intervals`;
raises on anything else, including the canonical dashed form. -/
def parse_date_slash (s : String) : Except PyErr Date :=
  match strptimeYMD (Char.ofNat 47) s with
  | some d => .ok d
  | none => .error .valueError

/-- utils.py `get_day` / features.py `_get_day`:
`int(date.split("-")[2])` — raises IndexError when the split has fewer than
three parts and ValueError when the third part is not an int literal. -/
def _get_day (s : String) : Except PyErr Int :=
  let parts := chSplit (Char.ofNat 45) s.data
  if parts.length ≤ 2 then .error .indexError
  else pyIntOfStringData (parts.getD 2 [])

/-- Days since 1970-01-01 of a calendar date (civil-from-days inverse,
Hinnant's algorithm); date subtraction `.days` is the difference of these. -/
def epochDay (dt : Date) : Int :=
  let y : Int := if dt.month ≤ 2 then dt.year - 1 else dt.year
  let m : Int := dt.month
  let d : Int := dt.day
  let era : Int := (if 0 ≤ y then y else y - 399).fdiv 400
  let yoe : Int := y - era * 400
  let mp : Int := (m + 9) % 12
  let doy : Int := (153 * mp + 2).fdiv 5 + d - 1
  let doe : Int := yoe * 365 + yoe.fdiv 4 - yoe.fdiv 100 + doy
  era * 146097 + doe - 719468

/-- Insertion into a sorted list; together with `sortLe` this models
Python's stable ascending sort. -/
def insertLe {α : Type} (le : α → α → Bool) (x : α) : List α → List α
  | [] => [x]
  | y :: ys => if le x y then x :: y :: ys else y :: insertLe le x ys

/-- Python sorted(...) / list.sort(...): stable ascending sort. -/
def sortLe {α : Type} (le : α → α → Bool) : List α → List α
  | [] => []
  | x :: xs => insertLe le x (sortLe le xs)

/-- Python list.sort(key=lambda x: x.date): stable sort of transactions by
their raw date string (lexicographic string comparison, as in Python). -/
def sortByDateStr (l : List Transaction) : List Transaction :=
  sortLe (fun a b => chLe a.date.data b.date.data) l

/-- Consecutive differences of a list (the shared interval computation over
already-sorted day numbers). -/
def dayDiffs : List Int → List Int
  | a :: b :: rest => (b - a) :: dayDiffs (b :: rest)
  | _ => []

/-- features.py / features_laurels.py `_calculate_intervals`: consecutive
day gaps of an (assumed sorted) date list; empty for fewer than two dates. -/
def _calculate_intervals (dates : List Date) : List Int :=
  dayDiffs (dates.map epochDay)

/-- date.weekday(): Monday = 0 .. Sunday = 6; 1970-01-01 was a Thursday. -/
def pyWeekday (d : Date) : Int :=
  (epochDay d + 3) % 7

/-- Python floor division a // b (also the rounding of timedelta.days). -/
def pyFloorDiv (a b : Int) : Int := a.fdiv b

/-- Python a % b for integers (sign of the divisor, floor-division based). -/
def pyModInt (a b : Int) : Int := a - b * a.fdiv b

/-- Mean of a rational list (np.mean); only ever consumed on nonempty input
in the modelled paths. -/
def listMean (xs : List ℚ) : ℚ := xs.sum / xs.length

/-- features.py `get_features` grouping step: `_aggregate_transactions`
buckets transactions by (user_id, name) preserving input order, and
`groups.get(user_id, {}).get(merchant_name, [])` then selects one bucket,
which is exactly the order-preserving filter below. -/
def _aggregate_merchant_trans (all_transactions : List Transaction)
    (user_id merchant_name : String) : List Transaction :=
  all_transactions.filter (fun t => t.user_id = user_id ∧ t.name = merchant_name)

/-- features.py `identical_transaction_ratio_feature`: merchant transactions
with the same amount and name over the total count; 0.0 for an empty total. -/
def identical_transaction_ratio_feature (transaction : Transaction)
    (all_transactions merchant_trans : List Transaction) : ℚ :=
  let identical_transaction_count :=
    (merchant_trans.filter
      (fun t => t.amount = transaction.amount ∧ t.name = transaction.name)).length
  if 0 < all_transactions.length then
    (identical_transaction_count : ℚ) / all_transactions.length
  else 0

/-- features.py `is_monthly_recurring_feature`: uses the lenient
`_parse_date`, silently dropping unparseable dates from the day list. -/
def is_monthly_recurring_feature (merchant_trans : List Transaction) : ℚ :=
  if merchant_trans.length ≤ 1 then 0
  else
    let days := (merchant_trans.filterMap (fun t => _parse_date t.date)).map Date.day
    if days = [] then 0
    else
      let unique_days := days.dedup.length
      1 - min (((unique_days : ℚ) - 1) / 5) 1

/-- features_laurels.py `is_monthly_recurring_feature`: same score, but the
day list is built with the strict utils.parse_date, so one malformed date
raises ValueError instead of being skipped. -/
def laurels_is_monthly_recurring_feature (merchant_trans : List Transaction) :
    Except PyErr ℚ :=
  if merchant_trans.length ≤ 1 then .ok 0
  else do
    let dates ← merchant_trans.mapM (fun t => parse_date t.date)
    let days := dates.map Date.day
    if days = [] then return 0
    else
      let unique_days := days.dedup.length
      return 1 - min (((unique_days : ℚ) - 1) / 5) 1

/-- features.py `time_since_last_transaction_same_merchant_feature`.  The
`datetime.now()` read is made explicit as the parameter `nowSec` (seconds
since the epoch); `(now - d).days` floors the second difference to days. -/
def time_since_last_transaction_same_merchant_feature (nowSec : Int)
    (parsed_dates : List Date) : ℚ :=
  match parsed_dates with
  | [] => 0
  | [d0] => ((pyFloorDiv (nowSec - 86400 * epochDay d0) 86400 : Int) : ℚ) / 365
  | d0 :: d1 :: rest =>
    let intervals := _calculate_intervals (d0 :: d1 :: rest)
    if intervals ≠ [] then ((intervals.sum : ℚ) / intervals.length) / 365
    else
      let minDay := ((d1 :: rest).map epochDay).foldl min (epochDay d0)
      ((pyFloorDiv (nowSec - 86400 * minDay) 86400 : Int) : ℚ) / 365

/-- features.py `is_deposit_feature`. -/
def is_deposit_feature (transaction : Transaction)
    (merchant_trans : List Transaction) : Int :=
  if 0 < transaction.amount ∧ 3 ≤ merchant_trans.length then 1 else 0

/-- features.py `day_of_week_feature`: weekday/6 of the lenient parse, 0 on
parse failure. -/
def day_of_week_feature (transaction : Transaction) : ℚ :=
  match _parse_date transaction.date with
  | some d => (pyWeekday d : ℚ) / 6
  | none => 0

/-- features.py `transaction_month_feature`: (month-1)/11 of the lenient
parse, 0 on parse failure. -/
def transaction_month_feature (transaction : Transaction) : ℚ :=
  match _parse_date transaction.date with
  | some d => ((d.month : ℚ) - 1) / 11
  | none => 0

/-- features.py `rolling_amount_mean_feature`: mean of the last three
amounts (float summation modelled exactly over ℚ). -/
def rolling_amount_mean_feature (merchant_trans : List Transaction) : ℚ :=
  let amounts := (merchant_trans.drop (merchant_trans.length - 3)).map
    Transaction.amount
  if amounts = [] then 0 else listMean amounts

/-- features.py `is_single_transaction_feature`. -/
def is_single_transaction_feature (merchant_trans : List Transaction) : Int :=
  if merchant_trans.length = 1 then 1 else 0

/-- features.py `merchant_amount_frequency_feature`: number of distinct
amounts in the merchant bucket. -/
def merchant_amount_frequency_feature (merchant_trans : List Transaction) : Int :=
  ((merchant_trans.map Transaction.amount).dedup).length

/-- features.py `get_n_transactions_same_amount`. -/
def get_n_transactions_same_amount (transaction : Transaction)
    (all_transactions : List Transaction) : Int :=
  (all_transactions.filter (fun t => t.amount = transaction.amount)).length

/-- features.py `get_percent_transactions_same_amount`: explicitly guarded
against an empty list. -/
def get_percent_transactions_same_amount (transaction : Transaction)
    (all_transactions : List Transaction) : ℚ :=
  if all_transactions = [] then 0
  else
    (get_n_transactions_same_amount transaction all_transactions : ℚ) /
      all_transactions.length

/-- features.py `get_n_transactions_same_day` via `_get_day`: raises on the
first date whose third dash-field is not an int literal (there is no
graceful path here).  Per list element the comparison date field is
re-extracted, as in the source comprehension. -/
def get_n_transactions_same_day (transaction : Transaction)
    (all_transactions : List Transaction) (n_days_off : Int) :
    Except PyErr Int :=
  all_transactions.foldlM
    (fun acc t => do
      let dayT ← _get_day t.date
      let day0 ← _get_day transaction.date
      pure (if |dayT - day0| ≤ n_days_off then acc + 1 else acc))
    0

/-- features.py `get_pct_transactions_same_day`: the count divided by the
unguarded total length (ZeroDivisionError on an empty list). -/
def get_pct_transactions_same_day (transaction : Transaction)
    (all_transactions : List Transaction) (n_days_off : Int) :
    Except PyErr ℚ := do
  let n ← get_n_transactions_same_day transaction all_transactions n_days_off
  if all_transactions.length = 0 then .error .zeroDivisionError
  else pure ((n : ℚ) / all_transactions.length)

/-- The loop body of features.py `get_n_transactions_days_apart`: skip a
comparison transaction whose date does not parse; otherwise count it if the
remainder of the absolute day distance modulo n_days_apart lies within
n_days_off of 0 or of n_days_apart (the precomputed lower/upper remainder
bounds of the source are inlined).  The only raise is the Python modulo with
n_days_apart = 0. -/
def days_apart_loop_body (transaction_date : Date)
    (n_days_apart n_days_off : Int) (n_txs : Int) (t : Transaction) :
    Except PyErr Int :=
  match _parse_date t.date with
  | none => pure n_txs
  | some t_date =>
    let days_diff := |epochDay t_date - epochDay transaction_date|
    if days_diff < n_days_apart - n_days_off then pure n_txs
    else if n_days_apart = 0 then .error .zeroDivisionError
    else
      let remainder := pyModInt days_diff n_days_apart
      pure (if remainder ≤ n_days_off ∨ n_days_apart - n_days_off ≤ remainder
        then n_txs + 1 else n_txs)

/-- features.py `get_n_transactions_days_apart`: returns 0 when the subject
date does not parse, then folds `days_apart_loop_body` over the list. -/
def get_n_transactions_days_apart (transaction : Transaction)
    (all_transactions : List Transaction) (n_days_apart n_days_off : Int) :
    Except PyErr Int :=
  match _parse_date transaction.date with
  | none => .ok 0
  | some transaction_date =>
    all_transactions.foldlM
      (days_apart_loop_body transaction_date n_days_apart n_days_off) 0

/-- features.py `get_pct_transactions_days_apart`: the days-apart count over
the unguarded total length (ZeroDivisionError on an empty list). -/
def get_pct_transactions_days_apart (transaction : Transaction)
    (all_transactions : List Transaction) (n_days_apart n_days_off : Int) :
    Except PyErr ℚ := do
  let n ← get_n_transactions_days_apart transaction all_transactions
    n_days_apart n_days_off
  if all_transactions.length = 0 then .error .zeroDivisionError
  else pure ((n : ℚ) / all_transactions.length)

/-- The sub-mapping of the features.py `get_features` dictionary whose values
are exactly representable over ℚ.  Field names follow the dictionary keys
(keys starting with a digit are prefixed with days_apart_/pct_).  The omitted
entries (the np.std / entropy / regex based scores) involve irrational
intermediate values; none of them reads the process clock —
`datetime.now()` is called only inside
`time_since_last_transaction_same_merchant_feature`. -/
structure FeatureSlice where
  n_transactions_same_amount : Int
  percent_transactions_same_amount : ℚ
  identical_transaction_ratio : ℚ
  is_monthly_recurring : ℚ
  time_since_last_transaction_same_merchant : ℚ
  is_deposit : Int
  day_of_week : ℚ
  transaction_month : ℚ
  rolling_amount_mean : ℚ
  is_single_transaction : Int
  merchant_amount_frequency : Int
  amount : ℚ
  same_day_exact : Int
  pct_transactions_same_day : ℚ
  same_day_off_by_1 : Int
  same_day_off_by_2 : Int
  days_apart_14_exact : Int
  pct_days_apart_14_exact : ℚ
  days_apart_14_off_by_1 : Int
  pct_days_apart_14_off_by_1 : ℚ
  days_apart_7_exact : Int
  pct_days_apart_7_exact : ℚ
  days_apart_7_off_by_1 : Int
  pct_days_apart_7_off_by_1 : ℚ

/-- features.py `get_features`, restricted to the `FeatureSlice` entries:
group the transactions, select and sort (by date string) the (user, merchant)
bucket, parse its dates once with the lenient parser, then build the feature
dictionary.  Entries are evaluated in dictionary order, and the first raising
entry aborts the whole extraction; the entries omitted from the slice cannot
raise on inputs whose amounts avoid the recurrence_likelihood zero divisor,
and none of them reads the clock.  `nowSec` makes the single ambient
`datetime.now()` read explicit. -/
def get_features (nowSec : Int) (transaction : Transaction)
    (all_transactions : List Transaction) : Except PyErr FeatureSlice := do
  let merchant_trans := sortByDateStr
    (_aggregate_merchant_trans all_transactions transaction.user_id
      transaction.name)
  let parsed_dates := merchant_trans.filterMap (fun t => _parse_date t.date)
  let same_day_exact ← get_n_transactions_same_day transaction all_transactions 0
  let pct_same_day ← get_pct_transactions_same_day transaction all_transactions 0
  let same_day_1 ← get_n_transactions_same_day transaction all_transactions 1
  let same_day_2 ← get_n_transactions_same_day transaction all_transactions 2
  let d14 ← get_n_transactions_days_apart transaction all_transactions 14 0
  let pct14 ← get_pct_transactions_days_apart transaction all_transactions 14 0
  let d14off ← get_n_transactions_days_apart transaction all_transactions 14 1
  let pct14off ← get_pct_transactions_days_apart transaction all_transactions 14 1
  let d7 ← get_n_transactions_days_apart transaction all_transactions 7 0
  let pct7 ← get_pct_transactions_days_apart transaction all_transactions 7 0
  let d7off ← get_n_transactions_days_apart transaction all_transactions 7 1
  let pct7off ← get_pct_transactions_days_apart transaction all_transactions 7 1
  pure {
    n_transactions_same_amount :=
      get_n_transactions_same_amount transaction all_transactions
    percent_transactions_same_amount :=
      get_percent_transactions_same_amount transaction all_transactions
    identical_transaction_ratio :=
      identical_transaction_ratio_feature transaction all_transactions
        merchant_trans
    is_monthly_recurring := is_monthly_recurring_feature merchant_trans
    time_since_last_transaction_same_merchant :=
      time_since_last_transaction_same_merchant_feature nowSec parsed_dates
    is_deposit := is_deposit_feature transaction merchant_trans
    day_of_week := day_of_week_feature transaction
    transaction_month := transaction_month_feature transaction
    rolling_amount_mean := rolling_amount_mean_feature merchant_trans
    is_single_transaction := is_single_transaction_feature merchant_trans
    merchant_amount_frequency := merchant_amount_frequency_feature merchant_trans
    amount := transaction.amount
    same_day_exact := same_day_exact
    pct_transactions_same_day := pct_same_day
    same_day_off_by_1 := same_day_1
    same_day_off_by_2 := same_day_2
    days_apart_14_exact := d14
    pct_days_apart_14_exact := pct14
    days_apart_14_off_by_1 := d14off
    pct_days_apart_14_off_by_1 := pct14off
    days_apart_7_exact := d7
    pct_days_apart_7_exact := pct7
    days_apart_7_off_by_1 := d7off
    pct_days_apart_7_off_by_1 := pct7off }

/-- utils.py `safe_feature` specialized to a scorer whose Python result is a
finite float (a total ℚ value in this model): an exception becomes 0.0 and a
non-positive value is clipped to 0.0.  The non-numeric and non-finite cases
of the wrapper cannot arise for such a scorer; the wrapper on arbitrary
Python values is modelled separately further below. -/
def safeFloat (r : Except PyErr ℚ) : ℚ :=
  match r with
  | .error _ => 0
  | .ok v => if v ≤ 0 then 0 else v

/-- features_original.py `_calc_intervals`: strict-parse every date (one
malformed date raises ValueError), sort chronologically, and take
consecutive day differences.  Sorting the date objects chronologically is
the same as sorting their epoch day numbers, and only day differences are
consumed downstream. -/
def original_calc_intervals (merchant_trans : List Transaction) :
    Except PyErr (List Int) := do
  let dates ← merchant_trans.mapM (fun t => parse_date t.date)
  let sorted := sortLe (fun a b => decide (a ≤ b)) (dates.map epochDay)
  pure (dayDiffs sorted)

/-- Keys of the Python dict `interval_counts` in first-occurrence order
(dict insertion order). -/
def dictKeysFirstSeen (l : List Int) : List Int :=
  l.foldl (fun acc x => if x ∈ acc then acc else acc ++ [x]) []

/-- Multiplicity of a value in the interval list (the dict count). -/
def countEq (l : List Int) (x : Int) : Nat :=
  (l.filter (fun y => y = x)).length

/-- `max(interval_counts.keys(), key=..., default=0)`: iterate the keys in
dict order keeping the first key of strictly greatest count; 0 for no keys. -/
def modeInterval (intervals : List Int) : Int :=
  match dictKeysFirstSeen intervals with
  | [] => 0
  | k :: ks =>
    ks.foldl
      (fun best x => if countEq intervals best < countEq intervals x then x
        else best) k

/-- The trusted recurring-gap targets of get_interval_consistency_score. -/
def trusted_targets : List Int := [7, 14, 17, 28, 30, 31, 45, 60, 90, 180, 365, 380]

/-- features_original.py `get_interval_consistency_score` before its
safe_feature wrapper (the graded variant): 0.0 without intervals, 0.0 when
the modal gap is not within tolerance_days of a trusted target, otherwise
the fraction of gaps within tolerance_days of the modal gap. -/
def original_get_interval_consistency_score_raw
    (merchant_trans : List Transaction) (tolerance_days : Int) :
    Except PyErr ℚ :=
  original_calc_intervals merchant_trans >>= fun intervals =>
    if intervals = [] then pure 0
    else
      let mode_interval := modeInterval intervals
      let isTrusted := trusted_targets.any
        (fun target => decide (|mode_interval - target| ≤ tolerance_days))
      if isTrusted = false then pure 0
      else
        let consistent :=
          (intervals.filter
            (fun i => decide (|i - mode_interval| ≤ tolerance_days))).length
        pure ((consistent : ℚ) / intervals.length)

/-- The score described by the specification sentence for
get_interval_consistency_score (stated from the claim's words, for
comparison with the implementation): the fraction of gaps within
tolerance_days of the modal gap when the mode is within tolerance_days of
some trusted target, and 0 when the mode matches no trusted target (or there
are no gaps). -/
def interval_consistency_spec (intervals : List Int) (tolerance_days : Int) :
    ℚ :=
  if intervals = [] then 0
  else
    let mode := modeInterval intervals
    if trusted_targets.any (fun target => decide (|mode - target| ≤ tolerance_days))
    then
      ((intervals.filter
        (fun i => decide (|i - mode| ≤ tolerance_days))).length : ℚ) /
        intervals.length
    else 0

/-- features_original.py `get_interval_consistency_score` as exported: the
raw graded score under the `@safe_feature` decorator. -/
def original_get_interval_consistency_score
    (merchant_trans : List Transaction) (tolerance_days : Int) : ℚ :=
  safeFloat (original_get_interval_consistency_score_raw merchant_trans
    tolerance_days)

/-- features_laurels.py `_calc_intervals` loop: each iteration strictly
parses the two adjacent dates with the %Y/%m/%d format (raising ValueError
on the canonical dashed dates) and records the absolute day difference. -/
def laurels_calc_intervals_go : List Transaction → Except PyErr (List Int)
  | a :: b :: rest => do
    let prev_date ← parse_date_slash a.date
    let curr_date ← parse_date_slash b.date
    let tail ← laurels_calc_intervals_go (b :: rest)
    pure (|epochDay curr_date - epochDay prev_date| :: tail)
  | _ => pure []

/-- features_laurels.py `_calc_intervals`: sort by raw date string, then the
pairwise slash-format parse-and-diff loop. -/
def laurels_calc_intervals (transactions : List Transaction) :
    Except PyErr (List Int) :=
  laurels_calc_intervals_go (sortByDateStr transactions)

/-- datetime.fromisoformat on the canonical date form: four-digit year,
zero-padded month and day, dashes; anything else raises ValueError.  (Python
also accepts longer ISO-8601 forms with time parts; only the date form
occurs here.) -/
def fromisoformat (s : String) : Except PyErr Date :=
  match chSplit (Char.ofNat 45) s.data with
  | [ys, ms, ds] =>
    if ys.length = 4 ∧ ys.all Char.isDigit ∧
       ms.length = 2 ∧ ms.all Char.isDigit ∧
       ds.length = 2 ∧ ds.all Char.isDigit then
      let y := digitsToNat ys
      let m := digitsToNat ms
      let d := digitsToNat ds
      if 1 ≤ m ∧ m ≤ 12 ∧ 1 ≤ d ∧ d ≤ daysInMonth y m then
        .ok ⟨y, m, d⟩
      else .error .valueError
    else .error .valueError
  | _ => .error .valueError

/-- `int(dt.timestamp())` for a midnight datetime.  The Python value also
depends on the local timezone; every theorem below is insensitive to the
concrete number (the demeaned single-element array is zero whatever it is),
so the UTC value is used. -/
def pyTimestamp (d : Date) : Int := 86400 * epochDay d

/-- np.fft.rfftfreq(n): the n/2+1 nonnegative sample frequencies k/n. -/
def rfftfreq (n : Nat) : List ℚ :=
  (List.range (n / 2 + 1)).map (fun k => (k : ℚ) / n)

/-- np.argmax: index of the first maximal element (0 for an empty list). -/
def argmaxList (xs : List ℚ) : Nat :=
  match xs.enum with
  | [] => 0
  | p :: ps => (ps.foldl (fun best q => if best.2 < q.2 then q else best) p).1

/-- The body shared by the two `get_interval_cluster_score` variants after
their differing `_calc_intervals` call.  With fewer than two intervals the
score is 0.0.  Otherwise the timestamp-collection loop
`for t in merchant_trans: d = t.date` only binds the LAST transaction's
date — the isinstance branch is indented after the loop — so at most one
timestamp is ever appended.  A transaction date is always a string here, so
the collected array is the singleton [int(fromisoformat(d).timestamp())];
its demeaned rfft is [0] after zeroing the DC entry, the dominant frequency
is freqs[0] = 0, and the zero guard returns 0.0.  The np.exp harmonic branch
and the multi-point DFT are unreachable; in the model they yield
`.error .notModelled`. -/
def interval_cluster_body (merchant_trans : List Transaction)
    (intervals : List Int) : Except PyErr ℚ :=
  if intervals.length < 2 then .ok 0
  else
    match merchant_trans.getLast? with
    | none => .error .nameError
    | some tLast => do
      let dt ← fromisoformat tLast.date
      let timestamps : List ℚ := [(pyTimestamp dt : ℚ)]
      let ts_mean := listMean timestamps
      let des := timestamps.map (fun x => x - ts_mean)
      match des with
      | [] => .error .valueError
      | [x] =>
        let fft1 : List ℚ := [x]
        let fft2 := fft1.set 0 0
        let freqs := rfftfreq timestamps.length
        let fft3 := List.zipWith
          (fun f v => if (1 : ℚ) / 86400 < f then 0 else v) freqs fft2
        let dominant_freq := freqs.getD (argmaxList (fft3.map abs)) 0
        if dominant_freq = 0 then pure 0
        else .error .notModelled
      | _ => .error .notModelled

/-- features_laurels.py `get_interval_cluster_score` (no safety wrapper). -/
def laurels_get_interval_cluster_score (merchant_trans : List Transaction) :
    Except PyErr ℚ := do
  let intervals ← laurels_calc_intervals merchant_trans
  interval_cluster_body merchant_trans intervals

/-- features_original.py `get_interval_cluster_score` before its wrapper. -/
def original_get_interval_cluster_score_raw
    (merchant_trans : List Transaction) : Except PyErr ℚ := do
  let intervals ← original_calc_intervals merchant_trans
  interval_cluster_body merchant_trans intervals

/-- features_original.py `get_interval_cluster_score` as exported: under the
`@safe_feature` decorator. -/
def original_get_interval_cluster_score (merchant_trans : List Transaction) :
    ℚ :=
  safeFloat (original_get_interval_cluster_score_raw merchant_trans)

/-! ## The sanitization wrappers of utils.py -/

/-- A Python float result: finite with an exact rational value, or one of
the non-finite values. -/
inductive FloatVal where
  | finite (x : ℚ)
  | nan
  | inf
  | neginf
  deriving DecidableEq, Repr

/-- The classes of value a wrapped scorer can return: a float, an int, a
bool (in Python a subclass of int), or any other object together with its
truthiness. -/
inductive PyVal where
  | pyFloat (v : FloatVal)
  | pyInt (n : Int)
  | pyBool (b : Bool)
  | obj (truthy : Bool)
  deriving DecidableEq, Repr

/-- A wrapped call either raises some exception or returns a value. -/
inductive PyResult where
  | raised
  | value (v : PyVal)
  deriving DecidableEq, Repr

/-- isinstance(val, int | float | np.floating | np.integer); a bool passes
this check. -/
def PyVal.isNumeric : PyVal → Bool
  | .pyFloat _ => true
  | .pyInt _ => true
  | .pyBool _ => true
  | .obj _ => false

/-- isinstance(val, float | np.floating) and not math.isfinite(val). -/
def PyVal.isNonFiniteFloat : PyVal → Bool
  | .pyFloat .nan => true
  | .pyFloat .inf => true
  | .pyFloat .neginf => true
  | _ => false

/-- val <= 0 for the classes that reach this comparison (the non-finite
floats were already filtered; False = 0 and True = 1). -/
def PyVal.nonpos : PyVal → Bool
  | .pyFloat (.finite x) => decide (x ≤ 0)
  | .pyFloat .neginf => true
  | .pyFloat _ => false
  | .pyInt n => decide (n ≤ 0)
  | .pyBool b => !b
  | .obj _ => false

/-- float(val) for a finite numeric value (exact in this model). -/
def PyVal.toFloatQ : PyVal → ℚ
  | .pyFloat (.finite x) => x
  | .pyFloat _ => 0
  | .pyInt n => (n : ℚ)
  | .pyBool b => if b then 1 else 0
  | .obj _ => 0

/-- int(val): truncation toward zero for a finite float. -/
def PyVal.toIntTrunc : PyVal → Int
  | .pyFloat (.finite x) => if 0 ≤ x then ⌊x⌋ else -⌊-x⌋
  | .pyFloat _ => 0
  | .pyInt n => n
  | .pyBool b => if b then 1 else 0
  | .obj _ => 0

/-- bool(val): Python truthiness.  NaN and the infinities are nonzero and
hence truthy. -/
def PyVal.pyTruthy : PyVal → Bool
  | .pyFloat (.finite x) => decide (x ≠ 0)
  | .pyFloat _ => true
  | .pyInt n => decide (n ≠ 0)
  | .pyBool b => b
  | .obj t => t

/-- utils.py `safe_feature`: catch any exception (0.0), zero out
non-numeric, non-finite and non-positive results, otherwise float(val). -/
def safe_feature {α : Type} (fn : α → PyResult) : α → ℚ := fun a =>
  match fn a with
  | .raised => 0
  | .value val =>
    if val.isNumeric = false then 0
    else if val.isNonFiniteFloat then 0
    else if val.nonpos then 0
    else val.toFloatQ

/-- utils.py `safe_feature_bool`: exceptions become False; any returned
value is passed through bool(val) — there is no finiteness check here. -/
def safe_feature_bool {α : Type} (fn : α → PyResult) : α → Bool := fun a =>
  match fn a with
  | .raised => false
  | .value val => val.pyTruthy

/-- utils.py `safe_feature_int`: like safe_feature with default 0 and a
final int(val) truncation. -/
def safe_feature_int {α : Type} (fn : α → PyResult) : α → Int := fun a =>
  match fn a with
  | .raised => 0
  | .value val =>
    if val.isNumeric = false then 0
    else if val.isNonFiniteFloat then 0
    else if val.nonpos then 0
    else val.toIntTrunc

/-! ## IEEE-754 binary64 model for the ends_in_99 check

A double is m * 2^e in mantissa-exponent form (not necessarily normalized).
All operations are exact integer computations followed by round to nearest,
ties to even, at 53 significant bits — the IEEE-754 behavior at these
magnitudes (no overflow or subnormals arise).  Everything is Int/Nat
arithmetic, so concrete evaluations are kernel-decidable. -/

/-- Fuel-driven binary logarithm: floor(log2 n) for n ≥ 1 (0 for n ≤ 1). -/
def log2fuel : Nat → Nat → Nat
  | 0, _ => 0
  | f + 1, n => if n ≤ 1 then 0 else log2fuel f (n / 2) + 1

/-- floor(log2 n); fuel n is always sufficient. -/
def natLog2 (n : Nat) : Nat := log2fuel n n

/-- Round a/b to the nearest integer, ties to even (b > 0). -/
def rneNat (a b : Nat) : Nat :=
  let q := a / b
  let r := a % b
  if 2 * r < b then q
  else if b < 2 * r then q + 1
  else if q % 2 = 0 then q else q + 1

/-- A double value m * 2^e. -/
structure DF where
  m : Int
  e : Int
  deriving DecidableEq, Repr

/-- Round an exact m * 2^e to 53 significant bits (round to nearest, ties
to even); exact values with at most 53 bits pass through unchanged. -/
def dfRound (m e : Int) : DF :=
  let a := m.natAbs
  if a < 2 ^ 53 then ⟨m, e⟩
  else
    let s := natLog2 a - 52
    let mant := rneNat a (2 ^ s)
    ⟨if m < 0 then -(mant : Int) else (mant : Int), e + s⟩

/-- Is 2^k ≤ a/d (a, d > 0)? -/
def le2pow (k : Int) (a d : Nat) : Bool :=
  if 0 ≤ k then decide (d * 2 ^ k.toNat ≤ a) else decide (d ≤ a * 2 ^ (-k).toNat)

/-- The IEEE double nearest to n/d (d > 0): the value denoted by a Python
decimal literal or produced by float division of exact integers. -/
def dfLit (n : Int) (d : Nat) : DF :=
  if n = 0 then ⟨0, 0⟩
  else
    let a := n.natAbs
    let cand : Int := (natLog2 a : Int) - (natLog2 d : Int)
    let k : Int :=
      if le2pow (cand + 1) a d then cand + 1
      else if le2pow cand a d then cand
      else cand - 1
    let e : Int := k - 52
    let mant : Nat :=
      if 0 ≤ e then rneNat a (d * 2 ^ e.toNat)
      else rneNat (a * 2 ^ (-e).toNat) d
    ⟨if n < 0 then -(mant : Int) else (mant : Int), e⟩

/-- A Python int used in float arithmetic (exactly representable here). -/
def dfOfInt (n : Int) : DF := ⟨n, 0⟩

/-- Align two doubles to a common exponent (exact). -/
def dfAlign (x y : DF) : Int × Int × Int :=
  let emin := min x.e y.e
  (x.m * 2 ^ (x.e - emin).toNat, y.m * 2 ^ (y.e - emin).toNat, emin)

/-- Correctly rounded double multiplication. -/
def dfMul (x y : DF) : DF := dfRound (x.m * y.m) (x.e + y.e)

/-- Correctly rounded double subtraction. -/
def dfSub (x y : DF) : DF :=
  match dfAlign x y with
  | (a, b, e) => dfRound (a - b) e

/-- Python float modulo x % y for y > 0: the exact remainder
x - y*floor(x/y), which is always exactly representable (fmod is exact). -/
def dfMod (x y : DF) : DF :=
  match dfAlign x y with
  | (a, b, e) => ⟨a - b * a.fdiv b, e⟩

/-- Exact value comparison x < y of doubles. -/
def dfLt (x y : DF) : Bool :=
  match dfAlign x y with
  | (a, b, _) => decide (a < b)

/-- Exact value equality x == y of doubles (and of a double with an int). -/
def dfEqv (x y : DF) : Bool :=
  match dfAlign x y with
  | (a, b, _) => decide (a = b)

/-- abs(x). -/
def dfAbs (x : DF) : DF := ⟨|x.m|, x.e⟩

/-- features.py `get_ends_in_99`: `(transaction.amount * 100) % 100 == 99`
with exact equality, in double arithmetic.  `amount` is the transaction's
float amount (the only field the function reads). -/
def get_ends_in_99 (amount : DF) : Bool :=
  dfEqv (dfMod (dfMul amount (dfOfInt 100)) (dfOfInt 100)) (dfOfInt 99)

/-- features_original.py `get_ends_in_99`: the tolerant variant
`abs((transaction.amount * 100) % 100 - 99) < 0.001`. -/
def original_get_ends_in_99 (amount : DF) : Bool :=
  dfLt (dfAbs (dfSub (dfMod (dfMul amount (dfOfInt 100)) (dfOfInt 100))
    (dfOfInt 99))) (dfLit 1 1000)


/-! ## Theorems -/

example : epochDay ⟨1970, 1, 1⟩ = 0 := by decide
example : epochDay ⟨2024, 3, 1⟩ - epochDay ⟨2024, 1, 31⟩ = 30 := by decide
example : epochDay ⟨2025, 1, 1⟩ - epochDay ⟨2024, 1, 1⟩ = 366 := by decide
example : _parse_date "2024-01-15" = some ⟨2024, 1, 15⟩ := by decide
example : _parse_date "2024-01-32" = none := by decide
example : _parse_date "2024/01/15" = none := by decide
example : _get_day "2024-01-15" = .ok 15 := by decide
example : _get_day "2024-01-xx" = .error .valueError := by decide

example : dfLit 1999 100 = ⟨5626684784446013, -48⟩ := by decide
example : dfLit 9990000000000001 1000000000000000 = ⟨5623870034678907, -49⟩ := by decide
example : dfLit 9990000000000001 1000000000000000 = dfLit 999 100 := by decide
example : dfEqv (dfLit 1 1000) ⟨1152921504606847, -60⟩ = true := by decide
example : dfMul (dfLit 1999 100) (dfOfInt 100) = ⟨8791694975696895, -42⟩ := by decide
example : get_ends_in_99 (dfLit 1999 100) = false := by decide
example : original_get_ends_in_99 (dfLit 1999 100) = true := by decide
example : get_ends_in_99 (dfLit 20 1) = false := by decide
example : original_get_ends_in_99 (dfLit 20 1) = false := by decide
example : original_get_ends_in_99 (dfLit 9990000000000001 1000000000000000) = true := by decide

/-- C9 counterexample: an interval_stats pair with mean 0 but std 7 makes
merchant_interval_std_feature return 7, not the claimed default 30.0 (the
code guards on the std, not the mean). -/
theorem C9_counterexample :
    merchant_interval_std_feature ⟨0, 7⟩ = 7 ∧ (7 : ℚ) ≠ 30 := by
  constructor
  · norm_num [merchant_interval_std_feature]
  · norm_num

/-- C9 (amended): when mean = 0 and std = 0 — the case actually produced by a
single-or-no-interval history — the std feature returns 30.0 and the mean
feature 60.0; in general the std feature defaults exactly when std ≤ 0
(regardless of the mean) and returns the std otherwise, and the mean feature
defaults exactly when mean ≤ 0. -/
theorem C9_interval_defaults :
    (∀ s : Stats, s.mean = 0 → s.std = 0 →
      merchant_interval_std_feature s = 30 ∧
      merchant_interval_mean_feature s = 60) ∧
    (∀ s : Stats, 0 < s.std → merchant_interval_std_feature s = s.std) ∧
    (∀ s : Stats, s.mean ≤ 0 → merchant_interval_mean_feature s = 60) := by
  refine ⟨fun s h1 h2 => ⟨?_, ?_⟩, fun s h => ?_, fun s h => ?_⟩
  · simp [merchant_interval_std_feature, h2]
  · simp [merchant_interval_mean_feature, h1]
  · simp [merchant_interval_std_feature, h]
  · simp [merchant_interval_mean_feature, not_lt.mpr h]

/-- C9 witness: the amended statement at ⟨0,0⟩, ⟨0,7⟩ and ⟨-1,3⟩. -/
theorem C9_interval_defaults_witness :
    (merchant_interval_std_feature ⟨0, 0⟩ = 30 ∧
      merchant_interval_mean_feature ⟨0, 0⟩ = 60) ∧
    merchant_interval_std_feature ⟨0, 7⟩ = 7 ∧
    merchant_interval_mean_feature ⟨-1, 3⟩ = 60 :=
  ⟨C9_interval_defaults.1 ⟨0, 0⟩ rfl rfl,
   C9_interval_defaults.2.1 ⟨0, 7⟩ (by norm_num),
   C9_interval_defaults.2.2 ⟨-1, 3⟩ (by norm_num)⟩

/-- C7: is_near_periodic_interval_feature returns 0 whenever std ≥ 5; for
std < 5 and nonzero mean it is the maximum over the targets (7, tol 2),
(30, tol 3), (365, tol 10) of 1 - min((|mean-target|/target)/(tol/target), 1);
and the result always lies in [0, 1]. -/
theorem C7_near_periodic_gate_formula_range :
    (∀ s : Stats, 5 ≤ s.std → is_near_periodic_interval_feature s = 0) ∧
    (∀ s : Stats, s.std < 5 → s.mean ≠ 0 →
      is_near_periodic_interval_feature s =
        max (max (1 - min (|s.mean - 7| / 7 / (2 / 7)) 1)
            (1 - min (|s.mean - 30| / 30 / (3 / 30)) 1))
          (1 - min (|s.mean - 365| / 365 / (10 / 365)) 1)) ∧
    (∀ s : Stats, 0 ≤ is_near_periodic_interval_feature s ∧
      is_near_periodic_interval_feature s ≤ 1) := by
  have key : ∀ s : Stats, s.mean ≠ 0 → s.std < 5 →
      is_near_periodic_interval_feature s =
        max (max (1 - min (|s.mean - 7| / 7 / (2 / 7)) 1)
            (1 - min (|s.mean - 30| / 30 / (3 / 30)) 1))
          (1 - min (|s.mean - 365| / 365 / (10 / 365)) 1) := by
    intro s hm hs
    have h30 : (0 : ℚ) ≤ 1 - min (|s.mean - 30| / 30 / (3 / 30)) 1 := by
      have := min_le_right (|s.mean - 30| / 30 / (3 / 30)) (1 : ℚ)
      linarith
    simp only [is_near_periodic_interval_feature, List.foldl, if_neg hm, if_pos hs]
    rw [max_comm (0 : ℚ), max_assoc, max_assoc,
      max_eq_right (le_max_of_le_left h30), max_assoc]
  refine ⟨fun s h => ?_, fun s h1 h2 => key s h2 h1, fun s => ⟨?_, ?_⟩⟩
  · simp only [is_near_periodic_interval_feature, List.foldl,
      if_neg (not_lt.mpr h)]
    split <;> rfl
  · by_cases hm : s.mean = 0
    · simp [is_near_periodic_interval_feature, hm]
    · by_cases hs : s.std < 5
      · rw [key s hm hs]
        have := min_le_right (|s.mean - 7| / 7 / (2 / 7)) (1 : ℚ)
        have h1 : (0:ℚ) ≤ 1 - min (|s.mean - 7| / 7 / (2 / 7)) 1 := by linarith
        exact le_trans h1 (le_max_of_le_left (le_max_left _ _))
      · simp only [is_near_periodic_interval_feature, List.foldl, if_neg hm,
          if_neg hs]
        norm_num
  · by_cases hm : s.mean = 0
    · simp [is_near_periodic_interval_feature, hm]
    · by_cases hs : s.std < 5
      · rw [key s hm hs]
        have b7 : (0:ℚ) ≤ min (|s.mean - 7| / 7 / (2 / 7)) 1 := by
          refine le_min ?_ (by norm_num)
          positivity
        have b30 : (0:ℚ) ≤ min (|s.mean - 30| / 30 / (3 / 30)) 1 := by
          refine le_min ?_ (by norm_num)
          positivity
        have b365 : (0:ℚ) ≤ min (|s.mean - 365| / 365 / (10 / 365)) 1 := by
          refine le_min ?_ (by norm_num)
          positivity
        refine max_le (max_le ?_ ?_) ?_ <;> linarith
      · simp only [is_near_periodic_interval_feature, List.foldl, if_neg hm,
          if_neg hs]
        norm_num

/-- C7 witness: the three parts at interval stats ⟨30, 7⟩ and ⟨30, 0⟩. -/
theorem C7_near_periodic_witness :
    is_near_periodic_interval_feature ⟨30, 7⟩ = 0 ∧
    is_near_periodic_interval_feature ⟨30, 0⟩ =
      max (max (1 - min (|(30 : ℚ) - 7| / 7 / (2 / 7)) 1)
          (1 - min (|(30 : ℚ) - 30| / 30 / (3 / 30)) 1))
        (1 - min (|(30 : ℚ) - 365| / 365 / (10 / 365)) 1) ∧
    (0 ≤ is_near_periodic_interval_feature ⟨30, 0⟩ ∧
      is_near_periodic_interval_feature ⟨30, 0⟩ ≤ 1) :=
  ⟨C7_near_periodic_gate_formula_range.1 ⟨30, 7⟩ (by norm_num),
   C7_near_periodic_gate_formula_range.2.1 ⟨30, 0⟩ (by norm_num) (by norm_num),
   C7_near_periodic_gate_formula_range.2.2 ⟨30, 0⟩⟩

/-- C10 counterexample: with merchant history and amount statistics held
fixed at a reachable value with negative amount mean (amounts -3 and 1 give
mean -1, std 2), decreasing the interval std from 10 to 0 DECREASES
recurrence_likelihood_feature (-198/505 < -99/505), contradicting the
claimed monotonicity; the amount factor 1/(2/(-1+0.01)+1) is negative. -/
theorem C10_counterexample :
    recurrence_likelihood_feature
      [⟨"u1", "m", -3, "2024-01-01"⟩, ⟨"u1", "m", 1, "2024-02-01"⟩]
      ⟨30, 0⟩ ⟨-1, 2⟩ = .ok (-198 / 505) ∧
    recurrence_likelihood_feature
      [⟨"u1", "m", -3, "2024-01-01"⟩, ⟨"u1", "m", 1, "2024-02-01"⟩]
      ⟨30, 10⟩ ⟨-1, 2⟩ = .ok (-99 / 505) ∧
    ¬ ((-99 : ℚ) / 505 ≤ -198 / 505) := by
  refine ⟨?_, ?_, by norm_num⟩ <;> norm_num [recurrence_likelihood_feature]

/-- C10 (amended): decreasing the interval standard deviation never
decreases is_near_periodic_interval_feature (unconditionally), and never
decreases recurrence_likelihood_feature provided the interval stds are
nonnegative and the fixed amount statistics have nonnegative mean and std
(which keeps the fixed amount factor positive; a negative amount mean can
reverse the ordering, as the counterexample shows). -/
theorem C10_std_monotonicity :
    (∀ (m std1 std2 : ℚ), std1 ≤ std2 →
      is_near_periodic_interval_feature ⟨m, std2⟩ ≤
        is_near_periodic_interval_feature ⟨m, std1⟩) ∧
    (∀ (mts : List Transaction) (m std1 std2 amean astd : ℚ),
      0 ≤ std1 → std1 ≤ std2 → 0 ≤ amean → 0 ≤ astd →
      ∃ r1 r2 : ℚ,
        recurrence_likelihood_feature mts ⟨m, std1⟩ ⟨amean, astd⟩ = .ok r1 ∧
        recurrence_likelihood_feature mts ⟨m, std2⟩ ⟨amean, astd⟩ = .ok r2 ∧
        r2 ≤ r1) := by
  constructor
  · intro m std1 std2 h12
    by_cases hm : m = 0
    · simp [is_near_periodic_interval_feature, hm]
    · by_cases h2 : std2 < 5
      · have h1 : std1 < 5 := lt_of_le_of_lt h12 h2
        simp only [is_near_periodic_interval_feature, List.foldl, if_neg hm,
          if_pos h1, if_pos h2]
        exact le_refl _
      · by_cases h1 : std1 < 5
        · simp only [is_near_periodic_interval_feature, List.foldl,
            if_neg hm, if_pos h1, if_neg h2]
          refine le_max_of_le_left (le_max_of_le_left (le_max_of_le_left ?_))
          linarith
        · simp only [is_near_periodic_interval_feature, List.foldl,
            if_neg hm, if_neg h1, if_neg h2]
          exact le_refl _
  · intro mts m std1 std2 amean astd h0 h12 ham has
    have hd1 : (0 : ℚ) < std1 / 10 + 1 := by linarith
    have hd2 : (0 : ℚ) < std2 / 10 + 1 := by linarith
    have hma : (0 : ℚ) < amean + 1 / 100 := by linarith
    have hda : (0 : ℚ) < astd / (amean + 1 / 100) + 1 := by positivity
    refine ⟨1 / (std1 / 10 + 1) * (1 / (astd / (amean + 1 / 100) + 1)) *
        min ((mts.length : ℚ) / 5) 1,
      1 / (std2 / 10 + 1) * (1 / (astd / (amean + 1 / 100) + 1)) *
        min ((mts.length : ℚ) / 5) 1, ?_, ?_, ?_⟩
    · simp only [recurrence_likelihood_feature, if_neg (ne_of_gt hd1),
        if_neg (ne_of_gt hma), if_neg (ne_of_gt hda)]
    · simp only [recurrence_likelihood_feature, if_neg (ne_of_gt hd2),
        if_neg (ne_of_gt hma), if_neg (ne_of_gt hda)]
    · have hmono : 1 / (std2 / 10 + 1) ≤ 1 / (std1 / 10 + 1) :=
        one_div_le_one_div_of_le hd1 (by linarith)
      have hamt : (0 : ℚ) ≤ 1 / (astd / (amean + 1 / 100) + 1) := by positivity
      have hf : (0 : ℚ) ≤ min ((mts.length : ℚ) / 5) 1 :=
        le_min (by positivity) (by norm_num)
      exact mul_le_mul_of_nonneg_right
        (mul_le_mul_of_nonneg_right hmono hamt) hf

/-- C10 witness: both amended parts at concrete inputs (equal mean 30,
stds 0 ≤ 10, nonnegative amount statistics). -/
theorem C10_std_monotonicity_witness :
    (is_near_periodic_interval_feature ⟨30, 10⟩ ≤
      is_near_periodic_interval_feature ⟨30, 0⟩) ∧
    (∃ r1 r2 : ℚ,
      recurrence_likelihood_feature [⟨"u1", "m", 5, "2024-01-01"⟩]
        ⟨30, 0⟩ ⟨5, 1⟩ = .ok r1 ∧
      recurrence_likelihood_feature [⟨"u1", "m", 5, "2024-01-01"⟩]
        ⟨30, 10⟩ ⟨5, 1⟩ = .ok r2 ∧
      r2 ≤ r1) :=
  ⟨C10_std_monotonicity.1 30 0 10 (by norm_num),
   C10_std_monotonicity.2 [⟨"u1", "m", 5, "2024-01-01"⟩] 30 0 10 5 1
     (by norm_num) (by norm_num) (by norm_num) (by norm_num)⟩

/-- C8 counterexample: a wrapped boolean scorer that returns float nan is
not replaced by the safe default False — safe_feature_bool applies bool(val)
and bool(nan) is True, so the claimed non-finite substitution is absent. -/
theorem C8_counterexample :
    safe_feature_bool (fun _ : Unit => PyResult.value (.pyFloat .nan)) () =
      true := rfl

/-- C8 (amended): the numeric wrapper returns 0.0 when the call raises or the
result is non-numeric, non-finite or non-positive, and otherwise the value
(as float); the integer wrapper does the same with default 0 and int()
truncation; the boolean wrapper returns False when the call raises and
otherwise bool(result) — Python truthiness, under which non-finite floats
(nan, ±inf) come out True, not the safe default. -/
theorem C8_sanitization_contract (α : Type) (fn : α → PyResult) (a : α) :
    (fn a = .raised →
      safe_feature fn a = 0 ∧ safe_feature_int fn a = 0 ∧
      safe_feature_bool fn a = false) ∧
    (∀ v : PyVal, fn a = .value v →
      ((v.isNumeric = false ∨ v.isNonFiniteFloat = true ∨ v.nonpos = true) →
        safe_feature fn a = 0 ∧ safe_feature_int fn a = 0) ∧
      (v.isNumeric = true → v.isNonFiniteFloat = false → v.nonpos = false →
        safe_feature fn a = v.toFloatQ ∧ safe_feature_int fn a = v.toIntTrunc) ∧
      safe_feature_bool fn a = v.pyTruthy) := by
  constructor
  · intro h
    simp [safe_feature, safe_feature_int, safe_feature_bool, h]
  · intro v hv
    refine ⟨?_, ?_, ?_⟩
    · rintro (h | h | h)
      · simp [safe_feature, safe_feature_int, hv, h]
      · have hnum : v.isNumeric = true := by
          rcases v with fv | n | b | t <;>
            first
              | rfl
              | simp [PyVal.isNonFiniteFloat] at h
        have hnp : v.nonpos = false ∨ v.nonpos = true := by
          rcases v.nonpos with _ | _ <;> simp
        constructor <;>
          simp [safe_feature, safe_feature_int, hv, hnum, h]
      · have hnum : v.isNumeric = true := by
          rcases v with fv | n | b | t
          · rfl
          · rfl
          · rfl
          · simp [PyVal.nonpos] at h
        by_cases hf : v.isNonFiniteFloat = true <;>
          constructor <;>
            simp [safe_feature, safe_feature_int, hv, hnum, h, hf]
    · intro h1 h2 h3
      constructor <;>
        simp [safe_feature, safe_feature_int, hv, h1, h2, h3]
    · simp [safe_feature_bool, hv]

/-- C8 witness: the amended contract applied at concrete wrapped scorers
(a raising call, a negative float result, and a positive float result). -/
theorem C8_sanitization_witness :
    (safe_feature (fun _ : Unit => PyResult.raised) () = 0 ∧
      safe_feature_int (fun _ : Unit => PyResult.raised) () = 0 ∧
      safe_feature_bool (fun _ : Unit => PyResult.raised) () = false) ∧
    (safe_feature (fun _ : Unit => .value (.pyFloat (.finite (-2)))) () = 0 ∧
      safe_feature_int (fun _ : Unit => .value (.pyFloat (.finite (-2)))) () = 0) ∧
    (safe_feature (fun _ : Unit => .value (.pyFloat (.finite (3/2)))) () =
        (PyVal.pyFloat (.finite (3/2))).toFloatQ ∧
      safe_feature_int (fun _ : Unit => .value (.pyFloat (.finite (3/2)))) () =
        (PyVal.pyFloat (.finite (3/2))).toIntTrunc) :=
  ⟨(C8_sanitization_contract Unit (fun _ => PyResult.raised) ()).1 rfl,
   (((C8_sanitization_contract Unit
       (fun _ => .value (.pyFloat (.finite (-2)))) ()).2
      (.pyFloat (.finite (-2))) rfl).1)
     (Or.inr (Or.inr (by norm_num [PyVal.nonpos]))),
   (((C8_sanitization_contract Unit
       (fun _ => .value (.pyFloat (.finite (3/2)))) ()).2
      (.pyFloat (.finite (3/2))) rfl).2.1)
     rfl rfl (by norm_num [PyVal.nonpos])⟩

/-- C4 counterexample: features.py get_ends_in_99 at amount 19.99 returns
FALSE, not the claimed true: in binary64, 19.99*100 is exactly
8791694975696895/2^42 = 1998.9999999999998, whose remainder modulo 100 is
not exactly 99, so the exact-equality check fails. -/
theorem C4_counterexample : get_ends_in_99 (dfLit 1999 100) = false := by
  decide

/-- C4 (amended): the tolerant features_original variant satisfies the whole
scenario — true at 19.99, false at 20.00, and true at the representation
9.990000000000001 (that decimal denotes the same double as 9.99, whose
product with 100 rounds to exactly 999); the features.py exact-equality
variant instead returns false at 19.99, false at 20.00 and true at
9.990000000000001. -/
theorem C4_ends_in_99_scenarios :
    original_get_ends_in_99 (dfLit 1999 100) = true ∧
    original_get_ends_in_99 (dfLit 20 1) = false ∧
    original_get_ends_in_99 (dfLit 9990000000000001 1000000000000000) = true ∧
    get_ends_in_99 (dfLit 20 1) = false ∧
    get_ends_in_99 (dfLit 9990000000000001 1000000000000000) = true ∧
    dfLit 9990000000000001 1000000000000000 = dfLit 999 100 := by
  decide

/-- Helper: with a nonzero n_days_apart the days-apart fold never raises,
whatever the accumulator. -/
theorem days_apart_fold_total (td : Date) (na no : Int) (hna : na ≠ 0) :
    ∀ (l : List Transaction) (acc : Int),
      ∃ n : Int, l.foldlM (days_apart_loop_body td na no) acc = .ok n := by
  intro l
  induction l with
  | nil => exact fun acc => ⟨acc, rfl⟩
  | cons t ts ih =>
    intro acc
    rw [List.foldlM_cons]
    cases hp : _parse_date t.date with
    | none =>
      simp only [days_apart_loop_body, hp]
      simpa using ih acc
    | some td2 =>
      simp only [days_apart_loop_body, hp]
      by_cases h1 : |epochDay td2 - epochDay td| < na - no
      · rw [if_pos h1]
        simpa using ih acc
      · rw [if_neg h1, if_neg hna]
        simpa using ih _

/-- C2 counterexample: on the empty transaction list,
get_pct_transactions_days_apart raises ZeroDivisionError (the count is
divided by the unguarded length 0) instead of returning the claimed 0.0. -/
theorem C2_counterexample :
    get_pct_transactions_days_apart ⟨"u1", "vendor", 10, "2024-01-15"⟩ []
      14 0 = .error .zeroDivisionError := by decide

/-- C2 (amended): get_pct_transactions_days_apart raises ZeroDivisionError
on the empty list; on every nonempty list (with positive n_days_apart) it is
total and returns the days-apart count divided by the list length. -/
theorem C2_pct_days_apart_total (tx : Transaction) (all : List Transaction)
    (a o : Int) (hne : all ≠ []) (ha : 0 < a) :
    ∃ n : Int, get_n_transactions_days_apart tx all a o = .ok n ∧
      get_pct_transactions_days_apart tx all a o =
        .ok ((n : ℚ) / all.length) := by
  have hna : a ≠ 0 := ne_of_gt ha
  obtain ⟨n, hn⟩ : ∃ n, get_n_transactions_days_apart tx all a o = .ok n := by
    unfold get_n_transactions_days_apart
    cases hp : _parse_date tx.date with
    | none => exact ⟨0, rfl⟩
    | some td => exact days_apart_fold_total td a o hna all 0
  have hlen : all.length ≠ 0 := by
    simpa [List.length_eq_zero] using hne
  refine ⟨n, hn, ?_⟩
  simp [get_pct_transactions_days_apart, hn, hlen]

/-- C2 witness: the amended statement at a one-element list. -/
theorem C2_pct_days_apart_total_witness :
    ∃ n : Int,
      get_n_transactions_days_apart ⟨"u1", "m", 10, "2024-01-15"⟩
        [⟨"u1", "m", 10, "2024-01-15"⟩] 14 0 = .ok n ∧
      get_pct_transactions_days_apart ⟨"u1", "m", 10, "2024-01-15"⟩
        [⟨"u1", "m", 10, "2024-01-15"⟩] 14 0 =
        .ok ((n : ℚ) / ([⟨"u1", "m", 10, "2024-01-15"⟩] :
          List Transaction).length) :=
  C2_pct_days_apart_total ⟨"u1", "m", 10, "2024-01-15"⟩
    [⟨"u1", "m", 10, "2024-01-15"⟩] 14 0 (by simp) (by norm_num)

/-- C5 counterexample: a transaction with malformed date "2024-01-xx" is not
excluded — it aborts the scorer: get_n_transactions_same_day raises
ValueError via _get_day, and features_laurels is_monthly_recurring_feature
raises via the strict parse_date. -/
theorem C5_counterexample :
    get_n_transactions_same_day ⟨"u1", "m", 10, "2024-01-15"⟩
      [⟨"u1", "m", 10, "2024-01-15"⟩, ⟨"u1", "m", 5, "2024-01-xx"⟩] 0 =
      .error .valueError ∧
    laurels_is_monthly_recurring_feature
      [⟨"u1", "m", 10, "2024-01-15"⟩, ⟨"u1", "m", 5, "2024-01-xx"⟩] =
      .error .valueError := by
  constructor <;> decide

/-- C5 (amended): scorers that consume dates through the lenient _parse_date
do exclude malformed-date transactions and return their defined result:
appending such a transaction leaves get_n_transactions_days_apart unchanged,
and day_of_week_feature of such a transaction is the defined default 0.  The
scorers going through _get_day or the strict parse_date instead raise, as
the counterexample shows. -/
theorem C5_lenient_excludes_malformed :
    (∀ (tx bad : Transaction) (all : List Transaction) (a o : Int),
      _parse_date bad.date = none →
      get_n_transactions_days_apart tx (all ++ [bad]) a o =
        get_n_transactions_days_apart tx all a o) ∧
    (∀ t : Transaction, _parse_date t.date = none →
      day_of_week_feature t = 0) := by
  constructor
  · intro tx bad all a o hbad
    cases hp : _parse_date tx.date with
    | none => simp only [get_n_transactions_days_apart, hp]
    | some td =>
      simp only [get_n_transactions_days_apart, hp]
      rw [List.foldlM_append]
      have hsingle : ∀ acc : Int,
          List.foldlM (days_apart_loop_body td a o) acc [bad] = pure acc := by
        intro acc
        simp [List.foldlM_cons, days_apart_loop_body, hbad]
      simp only [hsingle]
      exact bind_pure _
  · intro t ht
    unfold day_of_week_feature
    rw [ht]

/-- C5 witness: the amended statement at concrete transactions, with the
malformed date "oops". -/
theorem C5_lenient_excludes_malformed_witness :
    get_n_transactions_days_apart ⟨"u1", "m", 10, "2024-01-15"⟩
      ([⟨"u1", "m", 10, "2024-01-01"⟩] ++ [⟨"u1", "m", 4, "oops"⟩]) 7 0 =
      get_n_transactions_days_apart ⟨"u1", "m", 10, "2024-01-15"⟩
        [⟨"u1", "m", 10, "2024-01-01"⟩] 7 0 ∧
    day_of_week_feature ⟨"u1", "m", 4, "oops"⟩ = 0 :=
  ⟨C5_lenient_excludes_malformed.1 ⟨"u1", "m", 10, "2024-01-15"⟩
      ⟨"u1", "m", 4, "oops"⟩ [⟨"u1", "m", 10, "2024-01-01"⟩] 7 0 (by decide),
   C5_lenient_excludes_malformed.2 ⟨"u1", "m", 4, "oops"⟩ (by decide)⟩

/-- Bind of .ok in the Except monad (definitional; stated for simp use). -/
theorem except_bind_ok {ε α β : Type} (a : α) (k : α → Except ε β) :
    (Except.ok a : Except ε α) >>= k = k a := rfl

/-- Bind of .error in the Except monad (definitional; stated for simp use). -/
theorem except_bind_error {ε α β : Type} (e : ε) (k : α → Except ε β) :
    (Except.error e : Except ε α) >>= k = .error e := rfl

/-- Helper: the shared cluster-score body either returns 0.0 or raises — at
most one timestamp is ever collected, so the demeaned spectrum is all zeros,
the dominant frequency is 0 and the zero guard fires; the np.exp harmonic
branch is unreachable. -/
theorem interval_cluster_body_zero_or_error (mts : List Transaction)
    (ints : List Int) :
    interval_cluster_body mts ints = .ok 0 ∨
      ∃ e, interval_cluster_body mts ints = .error e := by
  unfold interval_cluster_body
  split_ifs with hlen
  · exact Or.inl rfl
  · cases hl : mts.getLast? with
    | none => simp
    | some tLast =>
      cases hf : fromisoformat tLast.date with
      | error e => right; exact ⟨e, by simp [hf, except_bind_error]⟩
      | ok dt =>
        left
        simp only [hf, except_bind_ok]
        simp [listMean, rfftfreq, argmaxList, List.range_succ, List.enum,
          List.set, List.getD]
        rfl

/-- C6 counterexample: on a merchant history of three transactions with
canonical dashed date strings, the features_laurels variant raises
ValueError (its _calc_intervals parses with the %Y/%m/%d format) instead of
returning the claimed 0.0. -/
theorem C6_counterexample :
    laurels_get_interval_cluster_score
      [⟨"u", "m", 10, "2024-01-01"⟩, ⟨"u", "m", 10, "2024-02-01"⟩,
        ⟨"u", "m", 10, "2024-03-01"⟩] = .error .valueError := by decide

/-- C6 (amended): the safe-wrapped features_original get_interval_cluster_score
returns 0.0 on every merchant history: fewer than two intervals give 0.0
directly; otherwise the timestamp-collection loop binds only the last
transaction's date, the single-point demeaned FFT is all zeros, the dominant
frequency is 0 and the zero guard returns 0.0 (and any parse failure is
caught by the wrapper, also yielding 0.0).  The unwrapped features_laurels
variant instead raises on canonical dashed dates (see the counterexample). -/
theorem C6_original_cluster_always_zero (mts : List Transaction) :
    original_get_interval_cluster_score mts = 0 := by
  unfold original_get_interval_cluster_score
    original_get_interval_cluster_score_raw
  cases hc : original_calc_intervals mts with
  | error e => simp [safeFloat, hc, except_bind_error]
  | ok ints =>
    rcases interval_cluster_body_zero_or_error mts ints with h | ⟨e, h⟩ <;>
      simp [safeFloat, hc, except_bind_ok, h]

/-- Helper: every element of the dict-key fold is either in the accumulator
or in the scanned list. -/
theorem dictKeysFirstSeen_aux_mem :
    ∀ (l acc : List Int) (x : Int),
      x ∈ l.foldl (fun acc x => if x ∈ acc then acc else acc ++ [x]) acc →
      x ∈ acc ∨ x ∈ l := by
  intro l
  induction l with
  | nil => exact fun acc x h => Or.inl h
  | cons y ys ih =>
    intro acc x h
    simp only [List.foldl_cons] at h
    rcases ih _ x h with h2 | h2
    · by_cases hy : y ∈ acc
      · rw [if_pos hy] at h2
        exact Or.inl h2
      · rw [if_neg hy] at h2
        rcases List.mem_append.mp h2 with h3 | h3
        · exact Or.inl h3
        · simp only [List.mem_singleton] at h3
          subst h3
          exact Or.inr (List.mem_cons_self _ _)
    · exact Or.inr (List.mem_cons_of_mem _ h2)

/-- Helper: the dict-key fold of a nonempty accumulator stays nonempty. -/
theorem dictKeysFirstSeen_aux_ne_nil :
    ∀ (l acc : List Int), acc ≠ [] →
      l.foldl (fun acc x => if x ∈ acc then acc else acc ++ [x]) acc ≠ [] := by
  intro l
  induction l with
  | nil => exact fun acc h => h
  | cons y ys ih =>
    intro acc h
    simp only [List.foldl_cons]
    apply ih
    by_cases hy : y ∈ acc
    · rw [if_pos hy]; exact h
    · rw [if_neg hy]
      exact fun hc => absurd (List.append_eq_nil.mp hc).2 (by simp)

/-- Helper: a keep-first-strict-max fold stays within the candidate list. -/
theorem foldl_max_mem (f : Int → Nat) :
    ∀ (ks : List Int) (k : Int),
      ks.foldl (fun best x => if f best < f x then x else best) k ∈ k :: ks := by
  intro ks
  induction ks with
  | nil => exact fun k => List.mem_cons_self _ _
  | cons x xs ih =>
    intro k
    simp only [List.foldl_cons]
    by_cases h : f k < f x
    · rw [if_pos h]
      rcases List.mem_cons.mp (ih x) with h2 | h2
      · rw [h2]
        exact List.mem_cons_of_mem _ (List.mem_cons_self _ _)
      · exact List.mem_cons_of_mem _ (List.mem_cons_of_mem _ h2)
    · rw [if_neg h]
      rcases List.mem_cons.mp (ih k) with h2 | h2
      · rw [h2]
        exact List.mem_cons_self _ _
      · exact List.mem_cons_of_mem _ (List.mem_cons_of_mem _ h2)

/-- Helper: the modal interval of a nonempty interval list occurs in it. -/
theorem modeInterval_mem (I : List Int) (hne : I ≠ []) : modeInterval I ∈ I := by
  have hsub : ∀ x ∈ dictKeysFirstSeen I, x ∈ I := by
    intro x hx
    rcases dictKeysFirstSeen_aux_mem I [] x hx with h | h
    · simp at h
    · exact h
  have hkeys : dictKeysFirstSeen I ≠ [] := by
    cases I with
    | nil => exact absurd rfl hne
    | cons y ys =>
      unfold dictKeysFirstSeen
      simp only [List.foldl_cons, List.not_mem_nil, if_neg, List.nil_append]
      exact dictKeysFirstSeen_aux_ne_nil ys [y] (by simp)
  unfold modeInterval
  cases hk : dictKeysFirstSeen I with
  | nil => exact absurd hk hkeys
  | cons k ks =>
    have hmem := foldl_max_mem (countEq I) ks k
    rw [← hk] at hmem
    exact hsub _ hmem

/-- Evaluation of the safe wrapper on a pure result. -/
theorem safeFloat_pure_eval (v : ℚ) :
    safeFloat (pure v) = if v ≤ 0 then 0 else v := rfl

/-- C3: the exported (safe-wrapped) graded get_interval_consistency_score of
features_original equals, on every merchant history whose dates all parse,
the specification value: the fraction of day-gaps within tolerance 5 of the
modal gap when the mode is within 5 of a trusted target, else 0; and on the
history 2024-01-01, 2024-01-31, 2024-03-01, 2024-03-11 (gaps 30, 30, 10) it
takes the proper fraction 2/3 strictly between 0 and 1. -/
theorem C3_interval_consistency_graded :
    (∀ (mts : List Transaction) (ds : List Date),
      mts.mapM (fun t => parse_date t.date) = .ok ds →
      original_get_interval_consistency_score mts 5 =
        interval_consistency_spec
          (dayDiffs (sortLe (fun a b => decide (a ≤ b)) (ds.map epochDay)))
          5) ∧
    (original_get_interval_consistency_score
        [⟨"u1", "m", 10, "2024-01-01"⟩, ⟨"u1", "m", 10, "2024-01-31"⟩,
          ⟨"u1", "m", 10, "2024-03-01"⟩, ⟨"u1", "m", 10, "2024-03-11"⟩] 5 =
        2 / 3 ∧
      (0 : ℚ) < 2 / 3 ∧ (2 / 3 : ℚ) < 1) := by
  have hpure0 : safeFloat (pure 0) = 0 := rfl
  have main : ∀ (mts : List Transaction) (ds : List Date),
      mts.mapM (fun t => parse_date t.date) = .ok ds →
      original_get_interval_consistency_score mts 5 =
        interval_consistency_spec
          (dayDiffs (sortLe (fun a b => decide (a ≤ b)) (ds.map epochDay)))
          5 := by
    intro mts ds h
    have hci : original_calc_intervals mts =
        .ok (dayDiffs (sortLe (fun a b => decide (a ≤ b)) (ds.map epochDay))) := by
      unfold original_calc_intervals
      rw [h]
      rfl
    set I := dayDiffs (sortLe (fun a b => decide (a ≤ b)) (ds.map epochDay))
      with hIdef
    unfold original_get_interval_consistency_score
      original_get_interval_consistency_score_raw
    rw [hci, except_bind_ok]
    by_cases hIe : I = []
    · rw [if_pos hIe]
      unfold interval_consistency_spec
      rw [if_pos hIe, hpure0]
    · rw [if_neg hIe]
      unfold interval_consistency_spec
      rw [if_neg hIe]
      cases htr : trusted_targets.any
          (fun target => decide (|modeInterval I - target| ≤ 5)) with
      | false =>
        simp only [htr]
        norm_num [hpure0]
      | true =>
        simp only [htr]
        have hmode : modeInterval I ∈ I := modeInterval_mem I hIe
        have hmem : modeInterval I ∈
            I.filter (fun i => decide (|i - modeInterval I| ≤ 5)) :=
          List.mem_filter.mpr ⟨hmode, by simp⟩
        have hfilter_pos :
            0 < (I.filter (fun i => decide (|i - modeInterval I| ≤ 5))).length :=
          List.length_pos.mpr (fun hnil => by
            rw [hnil] at hmem
            exact absurd hmem (List.not_mem_nil _))
        have hlen_pos : 0 < I.length := List.length_pos.mpr hIe
        have hval_pos : (0 : ℚ) <
            ((I.filter (fun i => decide (|i - modeInterval I| ≤ 5))).length : ℚ) /
              I.length :=
          div_pos (by exact_mod_cast hfilter_pos) (by exact_mod_cast hlen_pos)
        rw [if_neg (show ¬(true = false) by simp), if_pos trivial,
          safeFloat_pure_eval, if_neg (not_le.mpr hval_pos)]
  refine ⟨main, ?_, by norm_num, by norm_num⟩
  have h4 : ([⟨"u1", "m", 10, "2024-01-01"⟩, ⟨"u1", "m", 10, "2024-01-31"⟩,
        ⟨"u1", "m", 10, "2024-03-01"⟩, ⟨"u1", "m", 10, "2024-03-11"⟩] :
      List Transaction).mapM (fun t => parse_date t.date) =
      .ok [⟨2024, 1, 1⟩, ⟨2024, 1, 31⟩, ⟨2024, 3, 1⟩, ⟨2024, 3, 11⟩] := by
    decide
  rw [main _ _ h4]
  have hints : dayDiffs (sortLe (fun a b => decide (a ≤ b))
      (([⟨2024, 1, 1⟩, ⟨2024, 1, 31⟩, ⟨2024, 3, 1⟩, ⟨2024, 3, 11⟩] :
        List Date).map epochDay)) = [30, 30, 10] := by decide
  rw [hints]
  have h1 : ([30, 30, 10] : List Int) ≠ [] := by simp
  have h2 : trusted_targets.any
      (fun target => decide (|modeInterval [30, 30, 10] - target| ≤ 5)) =
      true := by decide
  have h3 : (([30, 30, 10] : List Int).filter
      (fun i => decide (|i - modeInterval [30, 30, 10]| ≤ 5))).length = 2 := by
    decide
  simp [interval_consistency_spec, h1, h2, h3]

/-- C3 witness: the equality of the wrapped score with the specification
value at the concrete four-transaction history. -/
theorem C3_interval_consistency_graded_witness :
    original_get_interval_consistency_score
      [⟨"u1", "m", 10, "2024-01-01"⟩, ⟨"u1", "m", 10, "2024-01-31"⟩,
        ⟨"u1", "m", 10, "2024-03-01"⟩, ⟨"u1", "m", 10, "2024-03-11"⟩] 5 =
      interval_consistency_spec
        (dayDiffs (sortLe (fun a b => decide (a ≤ b))
          (([⟨2024, 1, 1⟩, ⟨2024, 1, 31⟩, ⟨2024, 3, 1⟩, ⟨2024, 3, 11⟩] :
            List Date).map epochDay))) 5 :=
  C3_interval_consistency_graded.1
    [⟨"u1", "m", 10, "2024-01-01"⟩, ⟨"u1", "m", 10, "2024-01-31"⟩,
      ⟨"u1", "m", 10, "2024-03-01"⟩, ⟨"u1", "m", 10, "2024-03-11"⟩]
    [⟨2024, 1, 1⟩, ⟨2024, 1, 31⟩, ⟨2024, 3, 1⟩, ⟨2024, 3, 11⟩] (by decide)

/-- Helper: time_since_last_transaction_same_merchant_feature reads the
clock only when exactly one parsed date is present: for any other count the
result is independent of `nowSec` (no dates gives 0; two or more dates give
a nonempty interval list, whose branch never consults the clock). -/
theorem time_since_indep (pd : List Date) (h : pd.length ≠ 1) (n1 n2 : Int) :
    time_since_last_transaction_same_merchant_feature n1 pd =
      time_since_last_transaction_same_merchant_feature n2 pd := by
  match pd with
  | [] => rfl
  | [d] => exact absurd rfl h
  | d0 :: d1 :: rest =>
    have hne : _calculate_intervals (d0 :: d1 :: rest) ≠ [] := by
      simp [_calculate_intervals, dayDiffs]
    simp only [time_since_last_transaction_same_merchant_feature, if_pos hne]

/-- C1 (amended): get_features is independent of the process clock whenever
the merchant history of the transaction has a parsed-date count other than
one; the sole clock read sits in time_since_last_transaction_same_merchant,
which uses datetime.now() exactly when one parsed date is present (see the
counterexample). -/
theorem C1_clock_dependence_localized (n1 n2 : Int) (tx : Transaction)
    (all : List Transaction)
    (h : ((sortByDateStr (_aggregate_merchant_trans all tx.user_id
        tx.name)).filterMap (fun t => _parse_date t.date)).length ≠ 1) :
    get_features n1 tx all = get_features n2 tx all := by
  unfold get_features
  have hts := time_since_indep _ h n1 n2
  simp only [hts]

/-- C1 witness: two different clock values give the same feature slice on a
two-transaction merchant history. -/
theorem C1_clock_dependence_localized_witness :
    get_features 0 ⟨"u1", "netflix", 10, "2024-01-15"⟩
        [⟨"u1", "netflix", 10, "2024-01-15"⟩,
          ⟨"u1", "netflix", 10, "2024-02-15"⟩] =
      get_features 86400 ⟨"u1", "netflix", 10, "2024-01-15"⟩
        [⟨"u1", "netflix", 10, "2024-01-15"⟩,
          ⟨"u1", "netflix", 10, "2024-02-15"⟩] :=
  C1_clock_dependence_localized 0 86400 ⟨"u1", "netflix", 10, "2024-01-15"⟩
    [⟨"u1", "netflix", 10, "2024-01-15"⟩, ⟨"u1", "netflix", 10, "2024-02-15"⟩]
    (by decide)

/-- C1 counterexample: two calls to get_features with identical
(transaction, all_transactions) but different clock values differ — on a
single-transaction merchant history, time_since_last_transaction_same_merchant
is (now - date).days / 365, which changes when the clock advances one day. -/
theorem C1_clock_counterexample :
    get_features 0 ⟨"u1", "netflix", 10, "2024-01-15"⟩
        [⟨"u1", "netflix", 10, "2024-01-15"⟩] ≠
      get_features 86400 ⟨"u1", "netflix", 10, "2024-01-15"⟩
        [⟨"u1", "netflix", 10, "2024-01-15"⟩] := by
  have e_sd0 : get_n_transactions_same_day ⟨"u1", "netflix", 10, "2024-01-15"⟩
      [⟨"u1", "netflix", 10, "2024-01-15"⟩] 0 = .ok 1 := by decide
  have e_sd1 : get_n_transactions_same_day ⟨"u1", "netflix", 10, "2024-01-15"⟩
      [⟨"u1", "netflix", 10, "2024-01-15"⟩] 1 = .ok 1 := by decide
  have e_sd2 : get_n_transactions_same_day ⟨"u1", "netflix", 10, "2024-01-15"⟩
      [⟨"u1", "netflix", 10, "2024-01-15"⟩] 2 = .ok 1 := by decide
  have e_psd : get_pct_transactions_same_day ⟨"u1", "netflix", 10, "2024-01-15"⟩
      [⟨"u1", "netflix", 10, "2024-01-15"⟩] 0 = .ok 1 := by
    norm_num [get_pct_transactions_same_day, e_sd0, except_bind_ok]
  have e_d14 : get_n_transactions_days_apart ⟨"u1", "netflix", 10, "2024-01-15"⟩
      [⟨"u1", "netflix", 10, "2024-01-15"⟩] 14 0 = .ok 0 := by decide
  have e_d14o : get_n_transactions_days_apart ⟨"u1", "netflix", 10, "2024-01-15"⟩
      [⟨"u1", "netflix", 10, "2024-01-15"⟩] 14 1 = .ok 0 := by decide
  have e_d7 : get_n_transactions_days_apart ⟨"u1", "netflix", 10, "2024-01-15"⟩
      [⟨"u1", "netflix", 10, "2024-01-15"⟩] 7 0 = .ok 0 := by decide
  have e_d7o : get_n_transactions_days_apart ⟨"u1", "netflix", 10, "2024-01-15"⟩
      [⟨"u1", "netflix", 10, "2024-01-15"⟩] 7 1 = .ok 0 := by decide
  have e_p14 : get_pct_transactions_days_apart ⟨"u1", "netflix", 10, "2024-01-15"⟩
      [⟨"u1", "netflix", 10, "2024-01-15"⟩] 14 0 = .ok 0 := by
    norm_num [get_pct_transactions_days_apart, e_d14, except_bind_ok]
  have e_p14o : get_pct_transactions_days_apart ⟨"u1", "netflix", 10, "2024-01-15"⟩
      [⟨"u1", "netflix", 10, "2024-01-15"⟩] 14 1 = .ok 0 := by
    norm_num [get_pct_transactions_days_apart, e_d14o, except_bind_ok]
  have e_p7 : get_pct_transactions_days_apart ⟨"u1", "netflix", 10, "2024-01-15"⟩
      [⟨"u1", "netflix", 10, "2024-01-15"⟩] 7 0 = .ok 0 := by
    norm_num [get_pct_transactions_days_apart, e_d7, except_bind_ok]
  have e_p7o : get_pct_transactions_days_apart ⟨"u1", "netflix", 10, "2024-01-15"⟩
      [⟨"u1", "netflix", 10, "2024-01-15"⟩] 7 1 = .ok 0 := by
    norm_num [get_pct_transactions_days_apart, e_d7o, except_bind_ok]
  have hm : ∀ n : Int,
      (get_features n ⟨"u1", "netflix", 10, "2024-01-15"⟩
        [⟨"u1", "netflix", 10, "2024-01-15"⟩]).map
          (fun f => f.time_since_last_transaction_same_merchant) =
      .ok (time_since_last_transaction_same_merchant_feature n
        [⟨2024, 1, 15⟩]) := by
    intro n
    have hpd : (sortByDateStr (_aggregate_merchant_trans
        [⟨"u1", "netflix", 10, "2024-01-15"⟩] "u1" "netflix")).filterMap
          (fun t => _parse_date t.date) = [⟨2024, 1, 15⟩] := by decide
    simp only [get_features, e_sd0, e_psd, e_sd1, e_sd2, e_d14, e_p14,
      e_d14o, e_p14o, e_d7, e_p7, e_d7o, e_p7o, except_bind_ok, hpd]
    rfl
  intro hEq
  have h1 := hm 0
  rw [hEq, hm 86400] at h1
  injection h1 with h3
  have hE : epochDay ⟨2024, 1, 15⟩ = 19737 := by decide
  have hv1 : pyFloorDiv (0 - 86400 * epochDay ⟨2024, 1, 15⟩) 86400 =
      -19737 := by decide
  have hv2 : pyFloorDiv (86400 - 86400 * epochDay ⟨2024, 1, 15⟩) 86400 =
      -19736 := by decide
  simp only [time_since_last_transaction_same_merchant_feature,
    hv1, hv2] at h3
  norm_num at h3

/-- C6 witness: the always-zero statement applied at the empty history. -/
theorem C6_original_cluster_always_zero_witness :
    original_get_interval_cluster_score [] = 0 :=
  C6_original_cluster_always_zero []
